import Mathlib

/-!
Formal model of the two scripts of the repository
confluent-cloud-dr-automation: avro_producer_app.py and
avro_consumer_app.py.  Each script is straight-line module-level code
(environment loading, configuration validation, client construction)
followed by an infinite loop and signal-driven shutdown handlers.  The
model embeds the scripts as trace-producing functions: external inputs
(command line, file-system existence, process environment, randomness,
the clock, poll results) are parameters, and the observable behaviour
(printed lines, process exit, uncaught exceptions, client construction,
broker calls) is a list of events in program order.
-/

/-- Observable events of a script run, in program order.  An uncaught
Python exception is modelled by the event `raised`; `sys.exit(n)` by
`exited n`; construction of the SchemaRegistryClient and of the
SerializingProducer / DeserializingConsumer by the three client events. -/
inductive Ev : Type
  | out (line : String)
  | exited (code : Nat)
  | raised (msg : String)
  | schemaRegistryClient
  | producerClient
  | consumerClient
  | produceCall (topic : String)
  | pollCall
  | sleepCall
  | flushCall (timeout : Nat)
  | closeCall
  deriving DecidableEq, Repr

/-- Process environment after load_dotenv: an association list from
variable names to string values.  os.getenv returns the first binding,
none when the variable is unset. -/
abbrev Env := List (String × String)

/-- Python os.getenv(k): the value of variable k, or none when unset. -/
def getenv (env : Env) (k : String) : Option String :=
  (env.find? (fun p => p.1 == k)).map (fun p => p.2)

/-- Python os.getenv(k, d): the value of variable k, defaulting to d. -/
def getenvD (env : Env) (k d : String) : String :=
  (getenv env k).getD d

/-- Numeric value of a list of decimal digit characters. -/
def digitsVal (l : List Char) : Nat :=
  l.foldl (fun a c => a * 10 + (c.toNat - 48)) 0

/-- Surrounding whitespace stripped from a character list, as the Python
float builtin does before parsing. -/
def pyStrip (l : List Char) : List Char :=
  ((l.dropWhile Char.isWhitespace).reverse.dropWhile Char.isWhitespace).reverse

/-- Syntactic parts of a parsed finite float literal: sign, integer
digits, fractional digits with their count, and a signed decimal
exponent.  Kept syntactic so that parsing is kernel-computable; the
rational value is given by FloatLit.val. -/
structure FloatLit where
  neg : Bool
  intVal : Nat
  fracVal : Nat
  fracLen : Nat
  expNeg : Bool
  expVal : Nat
  deriving DecidableEq, Repr

/-- Rational value denoted by a parsed float literal. -/
def FloatLit.val (f : FloatLit) : ℚ :=
  (if f.neg then -1 else 1) * ((f.intVal : ℚ) + (f.fracVal : ℚ) / (10 : ℚ) ^ f.fracLen) *
    (if f.expNeg then ((10 : ℚ) ^ f.expVal)⁻¹ else (10 : ℚ) ^ f.expVal)

/-- Optional sign at the front of a literal; true means negative. -/
def pyFloatSign : List Char → Bool × List Char
  | '+' :: r => (false, r)
  | '-' :: r => (true, r)
  | r => (false, r)

/-- Exponent part of a float literal: an optional sign followed by at
least one digit, consuming the whole rest of the input. -/
def pyFloatExp : List Char → Option (Bool × Nat)
  | r =>
    let sg := pyFloatSign r
    let ed := sg.2.takeWhile Char.isDigit
    let rest := sg.2.dropWhile Char.isDigit
    if ed.isEmpty then none
    else if !rest.isEmpty then none
    else some (sg.1, digitsVal ed)

/-- Modelled from the Python builtin float (not repository code): parses
an optional sign and a finite decimal literal with optional fractional
part and optional exponent, surrounded by optional whitespace; any other
string raises ValueError, modelled as none.  Non-finite forms (inf, nan)
and digit-group underscores are omitted from the model. -/
def pyFloatLit (s : String) : Option FloatLit :=
  let sg := pyFloatSign (pyStrip s.toList)
  let ip := sg.2.takeWhile Char.isDigit
  let l1 := sg.2.dropWhile Char.isDigit
  let fp : List Char × List Char :=
    match l1 with
    | '.' :: r => (r.takeWhile Char.isDigit, r.dropWhile Char.isDigit)
    | _ => ([], l1)
  if ip.isEmpty && fp.1.isEmpty then none
  else
    let mk : Bool × Nat → FloatLit := fun e =>
      ⟨sg.1, digitsVal ip, digitsVal fp.1, fp.1.length, e.1, e.2⟩
    match fp.2 with
    | [] => some (mk (false, 0))
    | 'e' :: r => (pyFloatExp r).map mk
    | 'E' :: r => (pyFloatExp r).map mk
    | _ => none

/-- Python float conversion as a partial function into the rationals. -/
def pyFloat (s : String) : Option ℚ :=
  (pyFloatLit s).map FloatLit.val

/-- Python str.lower() applied character by character (the arguments
concerned are ASCII, where this agrees with Python). -/
def pyLower (s : String) : String := String.mk (s.toList.map Char.toLower)

/-- The function load_environment_file, defined identically in
avro_producer_app.py (lines 61-87) and avro_consumer_app.py (lines
54-75): resolve the env file from the optional first command-line
argument (lower-cased, east or west), exit 1 on an invalid argument or a
missing file, else load the file.  Returns the event trace and the
loaded file name (none when the process exited). -/
def load_environment_file (argv : List String) (fileExists : String → Bool) :
    List Ev × Option String :=
  let chosen : List Ev × Option String :=
    if argv.length > 1 then
      let env_arg := pyLower (argv.getD 1 "")
      if env_arg = "east" ∨ env_arg = "west" then ([], some (env_arg ++ ".env"))
      else
        ([Ev.out ("[ERROR] Invalid environment argument: " ++ env_arg),
          Ev.out "[INFO] Valid options: \x27east\x27, \x27west\x27",
          Ev.exited 1], none)
    else ([], some ".env")
  match chosen with
  | (tr, none) => (tr, none)
  | (tr, some env_file) =>
    if fileExists env_file then
      (tr ++ [Ev.out ("[INFO] Loaded environment from " ++ env_file)], some env_file)
    else
      (tr ++ [Ev.out ("[ERROR] " ++ env_file ++ " does not exist. Please generate or provide it."),
        Ev.exited 1], none)

namespace Producer

/-- The list required_vars of avro_producer_app.py lines 144-152. -/
def required_vars : List String :=
  ["BOOTSTRAP_SERVER", "SASL_USERNAME", "SASL_PASSWORD", "TOPIC_NAME",
   "SCHEMA_REGISTRY_URL", "SCHEMA_REGISTRY_API_KEY", "SCHEMA_REGISTRY_API_SECRET"]

/-- Module-level startup of avro_producer_app.py, lines 129-186: load the
environment file, parse MESSAGE_INTERVAL with an unguarded float call
(line 141, raising on a non-numeric value), report variables whose
os.getenv is None and exit 1 when any, else construct the schema-registry
client and the serializing producer.  Returns the startup trace and, when
startup reaches client construction, the parsed message interval. -/
def startup (argv : List String) (fileExists : String → Bool) (env : Env) :
    List Ev × Option ℚ :=
  match load_environment_file argv fileExists with
  | (tr, none) => (tr, none)
  | (tr, some _) =>
    match pyFloat (getenvD env "MESSAGE_INTERVAL" "1.0") with
    | none => (tr ++ [Ev.raised "ValueError: could not convert string to float"], none)
    | some interval =>
      let missing_vars := required_vars.filter (fun v => (getenv env v).isNone)
      if missing_vars.isEmpty then
        (tr ++ [Ev.schemaRegistryClient, Ev.producerClient], some interval)
      else
        (tr ++ [Ev.out ("[ERROR] Missing required environment variables: " ++
                  String.intercalate ", " missing_vars),
          Ev.exited 1], none)

end Producer

namespace Consumer

/-- The list required_vars of avro_consumer_app.py lines 94-98. -/
def required_vars : List String :=
  ["BOOTSTRAP_SERVER", "SASL_USERNAME", "SASL_PASSWORD", "TOPIC_NAME",
   "SCHEMA_REGISTRY_URL", "SCHEMA_REGISTRY_API_KEY", "SCHEMA_REGISTRY_API_SECRET"]

/-- Python truthiness test used by the consumer: not os.getenv(v) holds
when the variable is unset or set to the empty string. -/
def falsy : Option String → Bool
  | none => true
  | some s => s == ""

/-- Module-level startup of avro_consumer_app.py, lines 78-136: load the
environment file, report variables whose value is falsy (unset or empty)
and exit 1 when any, apply the CONSUMER_GROUP default with a warning when
that variable is falsy, then construct the schema-registry client and the
deserializing consumer.  Returns the startup trace and, when startup
reaches client construction, the consumer group in use. -/
def startup (argv : List String) (fileExists : String → Bool) (env : Env) :
    List Ev × Option String :=
  match load_environment_file argv fileExists with
  | (tr, none) => (tr, none)
  | (tr, some _) =>
    let missing_vars := required_vars.filter (fun v => falsy (getenv env v))
    if missing_vars.isEmpty then
      match getenv env "CONSUMER_GROUP" with
      | some g =>
        if g == "" then
          (tr ++ [Ev.out "[WARN] \x27CONSUMER_GROUP\x27 is not set. Using default: demo-dr-consumer-group",
            Ev.schemaRegistryClient, Ev.consumerClient], some "demo-dr-consumer-group")
        else
          (tr ++ [Ev.schemaRegistryClient, Ev.consumerClient], some g)
      | none =>
        (tr ++ [Ev.out "[WARN] \x27CONSUMER_GROUP\x27 is not set. Using default: demo-dr-consumer-group",
          Ev.schemaRegistryClient, Ev.consumerClient], some "demo-dr-consumer-group")
    else
      (tr ++ [Ev.out ("[ERROR] Missing environment variables: " ++
                String.intercalate ", " missing_vars),
        Ev.exited 1], none)

end Consumer

/-- Python string.ascii_uppercase. -/
def ascii_uppercase : List Char := "ABCDEFGHIJKLMNOPQRSTUVWXYZ".toList

/-- Python string.digits. -/
def string_digits : List Char := "0123456789".toList

/-- Python string.ascii_lowercase. -/
def ascii_lowercase : List Char := "abcdefghijklmnopqrstuvwxyz".toList

/-- Python random.choices(pool, k) joined to a string, with the random
source modelled as the sequence of indices drawn: draw i is the index
drawn at position i, taken modulo the population size. -/
def pyChoices (pool : List Char) (k : Nat) (draw : Nat → Nat) : String :=
  String.mk ((List.range k).map (fun i => pool.getD (draw i % pool.length) ' '))

/-- Python random.uniform(a, b) = a + (b - a) * u where u is the random
fraction in the closed unit interval, here an explicit input. -/
def pyUniform (a b u : ℚ) : ℚ := a + (b - a) * u

/-- Python round(x, 2) on exact rationals: the nearest multiple of 1/100
(CPython breaks ties on the underlying double to even; the tie direction
does not affect any property proved here). -/
def pyRound2 (x : ℚ) : ℚ := (round (x * 100) : ℤ) / 100

namespace Producer

/-- Transaction record as generated by the producer: the dictionary built
by generate_random_transaction, with the float amount modelled as an
exact rational. -/
structure Transaction where
  transaction_id : String
  customer_id : String
  amount : ℚ
  timestamp_ms : Int
  deriving DecidableEq, Repr

/-- generate_random_transaction, avro_producer_app.py lines 207-222:
8 characters drawn from uppercase letters and digits, 6 characters drawn
from lowercase letters, an amount uniform in [1.0, 1000.0] rounded to 2
decimal places, and the current epoch milliseconds.  The random draws
(drawU, drawL, u) and the clock reading now_ms are explicit inputs. -/
def generate_random_transaction (drawU drawL : Nat → Nat) (u : ℚ) (now_ms : Int) :
    Transaction :=
  { transaction_id := pyChoices (ascii_uppercase ++ string_digits) 8 drawU
    customer_id := pyChoices ascii_lowercase 6 drawL
    amount := pyRound2 (pyUniform 1 1000 u)
    timestamp_ms := now_ms }

/-- delivery_callback, avro_producer_app.py lines 227-231: on a delivery
error, log it as an error; otherwise log the delivery report.  In both
cases the function only prints, it neither raises nor exits. -/
def delivery_callback (err : Option String) (topic : String) (partition : Nat)
    (offset : Int) : List Ev :=
  match err with
  | some e => [Ev.out ("[ERROR] Message failed delivery: " ++ e)]
  | none =>
    [Ev.out ("[INFO] Message delivered to " ++ topic ++ " [" ++ toString partition ++
      "] at offset " ++ toString offset)]

/-- One iteration of the producer main loop, avro_producer_app.py lines
248-272.  The whole body (generate, produce, poll, log, sleep) runs
inside try; its outcome is an input, since generation, the broker call
and the sleep interact with the outside world: Except.ok carries the
events of a completed body, Except.error the message of an exception
raised anywhere inside the body.  Returns the events of the iteration
and whether the loop continues to the next iteration. -/
def loopIter (body : Except String (List Ev)) : List Ev × Bool :=
  match body with
  | .ok evs => (evs, true)
  | .error err => ([Ev.out ("[ERROR] Exception while producing message: " ++ err)], true)

/-- Events of a completed (exception-free) producer loop body, lines
249-268: produce with the delivery callback, a non-blocking poll, the
record log line, and the interval sleep.  The record log text is an
input, since it shows the generated random record. -/
def loopBodyOk (topic : String) (recordShown : String) : List Ev :=
  [Ev.produceCall topic, Ev.pollCall,
   Ev.out ("[INFO] Produced record: " ++ recordShown), Ev.sleepCall]

/-- handle_shutdown of avro_producer_app.py lines 191-202, installed for
both SIGINT and SIGTERM: print the notice, flush with a 10 second
timeout, exit with status 0.  The signal number and frame arguments are
unused by the handler body. -/
def handle_shutdown (signal_received : Nat) : List Ev :=
  [Ev.out "\n[INFO] Shutdown signal received. Flushing producer.",
   Ev.flushCall 10, Ev.exited 0]

end Producer

namespace Consumer

/-- librdkafka error code KafkaError._PARTITION_EOF, the broker-reported
end-of-partition marker. -/
def PARTITION_EOF : Int := -191

/-- Result of one consumer.poll call: no message within the timeout, a
message carrying an error (with its code and rendered text), or a
successfully deserialized record (its rendered value, partition and
offset). -/
inductive PollResult : Type
  | noMessage
  | errorResult (code : Int) (text : String)
  | record (value : String) (partition : Nat) (offset : Nat)
  deriving DecidableEq, Repr

/-- One iteration of the consumer main loop, avro_consumer_app.py lines
168-189: a null poll result continues; an end-of-partition error
continues silently; any other error is logged and the loop continues; a
record is logged with offset, partition and value.  Returns the events
of the iteration and whether the loop continues (every branch does). -/
def loopIter : PollResult → List Ev × Bool
  | .noMessage => ([], true)
  | .errorResult code text =>
    if code = PARTITION_EOF then ([], true)
    else ([Ev.out ("[ERROR] " ++ text)], true)
  | .record v p o =>
    ([Ev.out ("[INFO] Consumed record @ offset " ++ toString o ++ ", partition " ++
      toString p ++ ": " ++ v)], true)

/-- handle_shutdown of avro_consumer_app.py lines 141-150, installed for
both SIGINT and SIGTERM: print the notice, close the consumer, exit with
status 0. -/
def handle_shutdown (sig : Nat) : List Ev :=
  [Ev.out "\n[INFO] Shutdown signal received. Closing consumer.",
   Ev.closeCall, Ev.exited 0]

end Consumer

namespace AvroWire

/-- Modelled from the spec: Avro binary encoding and the registry wire
format are delegated to the client library; this namespace embeds the
documented format for the four-field transaction schema
(TRANSACTION_SCHEMA_STR of avro_producer_app.py lines 92-116): zigzag
mapping of a signed long. -/
def zigzag (i : Int) : Nat :=
  if 0 ≤ i then 2 * i.toNat else 2 * (-i).toNat - 1

/-- Inverse of the zigzag mapping. -/
def unzigzag (n : Nat) : Int :=
  if n % 2 = 0 then ((n / 2 : Nat) : Int) else -(((n / 2 : Nat) : Int) + 1)

/-- Base-128 varint encoding of an unsigned number, low group first,
high bit set on every byte except the last. -/
def varint (n : Nat) : List Nat :=
  if h : n < 128 then [n] else (n % 128 + 128) :: varint (n / 128)
termination_by n
decreasing_by exact Nat.div_lt_self (by omega) (by omega)

/-- Varint decoding from a byte stream, returning the value and the rest. -/
def varintDec : List Nat → Option (Nat × List Nat)
  | [] => none
  | b :: rest =>
    if b < 128 then some (b, rest)
    else
      match varintDec rest with
      | some (m, r) => some (b - 128 + 128 * m, r)
      | none => none

/-- Reading an exact number of bytes from a stream. -/
def readN (n : Nat) (l : List Nat) : Option (List Nat × List Nat) :=
  if n ≤ l.length then some (l.take n, l.drop n) else none

/-- Modelled from the spec: an Avro string is its length as a zigzag
varint long followed by its UTF-8 bytes; the strings of this application
are ASCII, for which the bytes are the character codes. -/
def encString (s : String) : List Nat :=
  varint (zigzag s.toList.length) ++ s.toList.map Char.toNat

/-- Decoding of an Avro string: read the zigzag long length, require it
non-negative, read that many bytes. -/
def decString (l : List Nat) : Option (String × List Nat) :=
  match varintDec l with
  | none => none
  | some (z, r) =>
    let len := unzigzag z
    if 0 ≤ len then
      match readN len.toNat r with
      | none => none
      | some (bs, rest) => some (String.mk (bs.map Char.ofNat), rest)
    else none

/-- Modelled from the spec: an Avro float is its IEEE-754 bit pattern as
4 little-endian bytes; the pattern is carried as a number below 2^32. -/
def le32 (n : Nat) : List Nat :=
  [n % 256, n / 256 % 256, n / 65536 % 256, n / 16777216 % 256]

/-- Decoding of an Avro float to its 32-bit pattern. -/
def decFloat32 : List Nat → Option (Nat × List Nat)
  | b0 :: b1 :: b2 :: b3 :: rest =>
    some (b0 % 256 + 256 * (b1 % 256) + 65536 * (b2 % 256) + 16777216 * (b3 % 256), rest)
  | _ => none

/-- Modelled from the spec: the registry framing puts the schema id as 4
big-endian bytes after the magic byte. -/
def be32 (n : Nat) : List Nat :=
  [n / 16777216 % 256, n / 65536 % 256, n / 256 % 256, n % 256]

/-- Transaction value at the Avro boundary: the two strings, the 32-bit
pattern of the float amount, and the long timestamp.  Field-for-field
equality of records is equality of these four fields; float arithmetic
beyond bit identity is not modelled. -/
structure WireTransaction where
  transaction_id : String
  customer_id : String
  amountBits : Nat
  timestamp_ms : Int
  deriving DecidableEq, Repr

/-- transaction_to_avro, avro_producer_app.py lines 118-124: the
to-dict callback handed to AvroSerializer, rebuilding the record field
by field. -/
def transaction_to_avro (transaction : WireTransaction) : WireTransaction :=
  { transaction_id := transaction.transaction_id
    customer_id := transaction.customer_id
    amountBits := transaction.amountBits
    timestamp_ms := transaction.timestamp_ms }

/-- Modelled from the spec: Avro binary body of a transaction under
TRANSACTION_SCHEMA_STR, the concatenation of the encoded fields in
schema order (string, string, float, long). -/
def encodeBody (t : WireTransaction) : List Nat :=
  encString t.transaction_id ++ encString t.customer_id ++
    le32 t.amountBits ++ varint (zigzag t.timestamp_ms)

/-- Decoding of a transaction body, consuming the stream exactly. -/
def decodeBody (l : List Nat) : Option WireTransaction :=
  match decString l with
  | none => none
  | some (tid, r1) =>
    match decString r1 with
    | none => none
    | some (cid, r2) =>
      match decFloat32 r2 with
      | none => none
      | some (ab, r3) =>
        match varintDec r3 with
        | none => none
        | some (z, r4) =>
          if r4 = [] then some ⟨tid, cid, ab, unzigzag z⟩ else none

/-- Modelled from the spec: the producer serialization path — apply
transaction_to_avro, then emit magic byte 0, the registry-assigned
schema id as 4 big-endian bytes, then the Avro body. -/
def serialize (schemaId : Nat) (t : WireTransaction) : List Nat :=
  0 :: (be32 schemaId ++ encodeBody (transaction_to_avro t))

/-- Modelled from the spec: the consumer AvroDeserializer constructed
with no reader schema (avro_consumer_app.py line 119) — require the
magic byte, read the embedded schema id, resolve it against the registry
(modelled as the registry mapping registrySchemaId to the transaction
schema), then decode the body under that schema. -/
def deserialize (registrySchemaId : Nat) (msg : List Nat) : Option WireTransaction :=
  match msg with
  | 0 :: rest =>
    match readN 4 rest with
    | some (idBytes, body) =>
      if idBytes = be32 registrySchemaId then decodeBody body else none
    | none => none
  | _ => none

end AvroWire

/-- Membership of every character of a string in a character class,
stated as an executable test: the regular expression class{n} matcher
for a fixed-length class repetition. -/
def matchesClass (cls : List Char) (n : Nat) (s : String) : Prop :=
  s.toList.length = n ∧ ∀ c ∈ s.toList, c ∈ cls

instance (cls : List Char) (n : Nat) (s : String) : Decidable (matchesClass cls n s) := by
  unfold matchesClass; infer_instance

/-- Test for a printed warning line in an event trace. -/
def isWarn : Ev → Bool
  | .out s => "[WARN]".toList.isPrefixOf s.toList
  | _ => false

/-- Concrete environment with every required variable set to a non-empty
value and neither optional variable set, used for concrete instantiations. -/
def envFull : Env :=
  [("BOOTSTRAP_SERVER", "broker.example:9092"), ("SASL_USERNAME", "apikey"),
   ("SASL_PASSWORD", "apisecret"), ("TOPIC_NAME", "transactions"),
   ("SCHEMA_REGISTRY_URL", "https://sr.example"), ("SCHEMA_REGISTRY_API_KEY", "srkey"),
   ("SCHEMA_REGISTRY_API_SECRET", "srsecret")]

/-- Concrete environment with every required variable set to the empty
string, used for concrete instantiations. -/
def envEmptyVals : Env :=
  [("BOOTSTRAP_SERVER", ""), ("SASL_USERNAME", ""), ("SASL_PASSWORD", ""),
   ("TOPIC_NAME", ""), ("SCHEMA_REGISTRY_URL", ""), ("SCHEMA_REGISTRY_API_KEY", ""),
   ("SCHEMA_REGISTRY_API_SECRET", "")]

/-! Helper lemmas about the Avro wire model. -/

namespace AvroWire

theorem varintDec_varint (n : Nat) (rest : List Nat) :
    varintDec (varint n ++ rest) = some (n, rest) := by
  induction n using Nat.strong_induction_on with
  | _ n ih =>
    rw [varint]
    split
    · next h => simp [varintDec, h]
    · next h =>
      have h128 : ¬ (n % 128 + 128 < 128) := by omega
      simp only [List.cons_append, varintDec, if_neg h128, List.append_eq]
      rw [ih (n / 128) (Nat.div_lt_self (by omega) (by omega))]
      simp only [Option.some.injEq, Prod.mk.injEq]
      exact ⟨by omega, trivial⟩

theorem varintDec_varint_nil (n : Nat) : varintDec (varint n) = some (n, []) := by
  have h := varintDec_varint n []
  rwa [List.append_nil] at h

theorem unzigzag_zigzag (i : Int) : unzigzag (zigzag i) = i := by
  simp only [zigzag, unzigzag]
  split <;> split <;> omega

theorem readN_exact (l rest : List Nat) : readN l.length (l ++ rest) = some (l, rest) := by
  unfold readN
  rw [if_pos (by simp), List.take_left, List.drop_left]

theorem decString_encString (s : String) (rest : List Nat) :
    decString (encString s ++ rest) = some (s, rest) := by
  unfold encString decString
  rw [List.append_assoc, varintDec_varint]
  simp only [unzigzag_zigzag]
  rw [if_pos (Int.natCast_nonneg _)]
  have hlen : (s.toList.map Char.toNat).length = s.toList.length := List.length_map _ _
  rw [Int.toNat_natCast, ← hlen, readN_exact]
  simp only [List.map_map]
  have hmap : ∀ l : List Char, l.map (Char.ofNat ∘ Char.toNat) = l := by
    intro l
    induction l with
    | nil => rfl
    | cons c cs ihc => simp only [List.map_cons, Function.comp_apply, Char.ofNat_toNat, ihc]
  rw [hmap]
  rfl

theorem decFloat32_le32 (n : Nat) (h : n < 4294967296) (rest : List Nat) :
    decFloat32 (le32 n ++ rest) = some (n, rest) := by
  simp only [le32, List.cons_append, List.nil_append, decFloat32,
    Option.some.injEq, Prod.mk.injEq]
  exact ⟨by omega, trivial⟩

theorem decodeBody_encodeBody (t : WireTransaction) (h : t.amountBits < 4294967296) :
    decodeBody (encodeBody t) = some t := by
  unfold encodeBody decodeBody
  simp only [List.append_assoc]
  rw [decString_encString]
  simp only
  rw [decString_encString]
  simp only
  rw [decFloat32_le32 _ h]
  simp only
  rw [varintDec_varint_nil]
  simp only [unzigzag_zigzag]
  rw [if_pos True.intro]

theorem deserialize_serialize (schemaId : Nat) (t : WireTransaction)
    (h : t.amountBits < 4294967296) :
    deserialize schemaId (serialize schemaId t) = some t := by
  unfold serialize deserialize transaction_to_avro
  simp only
  rw [show (4 : Nat) = (be32 schemaId).length from rfl, readN_exact]
  simp only [if_pos rfl]
  exact decodeBody_encodeBody _ h

end AvroWire

/-- C5: for every transaction record handed to the producer path,
serializing it (transaction_to_avro, then the registry wire framing and
the Avro binary encoding under the four-field transaction schema) and
deserializing the result through the consumer path (magic byte, schema id
resolved against the registry, body decoded under the resolved schema)
yields a record equal field for field to the original.  The 32-bit float
amount is carried as its bit pattern, hence the bound hypothesis. -/
theorem C5_produce_consume_roundtrip (schemaId : Nat) (t : AvroWire.WireTransaction)
    (hamount : t.amountBits < 4294967296) :
    AvroWire.deserialize schemaId (AvroWire.serialize schemaId t) = some t :=
  AvroWire.deserialize_serialize schemaId t hamount

/-- Witness for C5 at a concrete record and schema id. -/
theorem C5_produce_consume_roundtrip_witness :
    AvroWire.deserialize 100042
      (AvroWire.serialize 100042 ⟨"TX12AB34", "abcdef", 1065353216, 1723847241000⟩) =
      some ⟨"TX12AB34", "abcdef", 1065353216, 1723847241000⟩ :=
  C5_produce_consume_roundtrip 100042 ⟨"TX12AB34", "abcdef", 1065353216, 1723847241000⟩
    (by decide)

/-- C6: every consumer poll result falls in exactly one of the four
non-fatal branches of the loop body — null result: continue with no
output; end-of-partition error: continue with no output and in
particular no error log; any other error: error logged, loop continues;
record: logged with partition and offset, loop continues.  The last
conjunct states that no poll result ever stops the loop. -/
theorem C6_poll_branch_classification :
    Consumer.loopIter Consumer.PollResult.noMessage = ([], true) ∧
    (∀ text, Consumer.loopIter (Consumer.PollResult.errorResult Consumer.PARTITION_EOF text) =
      ([], true)) ∧
    (∀ code text, code ≠ Consumer.PARTITION_EOF →
      Consumer.loopIter (Consumer.PollResult.errorResult code text) =
        ([Ev.out ("[ERROR] " ++ text)], true)) ∧
    (∀ v p o, Consumer.loopIter (Consumer.PollResult.record v p o) =
      ([Ev.out ("[INFO] Consumed record @ offset " ++ toString o ++ ", partition " ++
        toString p ++ ": " ++ v)], true)) ∧
    (∀ r, (Consumer.loopIter r).2 = true) := by
  refine ⟨rfl, fun t => by simp [Consumer.loopIter], fun c t h => by simp [Consumer.loopIter, h],
    fun v p o => rfl, fun r => ?_⟩
  cases r with
  | noMessage => rfl
  | errorResult code text =>
    simp only [Consumer.loopIter]
    split <;> rfl
  | record v p o => rfl

/-- Witness for C6 at concrete poll results. -/
theorem C6_poll_branch_classification_witness :
    Consumer.loopIter (Consumer.PollResult.errorResult 0 "broker transport failure") =
      ([Ev.out "[ERROR] broker transport failure"], true) ∧
    Consumer.loopIter (Consumer.PollResult.errorResult Consumer.PARTITION_EOF "eof") =
      ([], true) :=
  ⟨C6_poll_branch_classification.2.2.1 0 "broker transport failure" (by decide),
   C6_poll_branch_classification.2.1 "eof"⟩

/-- C7: for any received interrupt or termination signal, the producer
shutdown handler prints its notice, flushes with a 10 second timeout and
exits with status 0, and the consumer shutdown handler prints its
notice, closes the consumer and exits with status 0; the trace order
puts the flush (resp. close) before the exit. -/
theorem C7_shutdown_handlers (sigP sigC : Nat) :
    Producer.handle_shutdown sigP =
      [Ev.out "\n[INFO] Shutdown signal received. Flushing producer.",
       Ev.flushCall 10, Ev.exited 0] ∧
    Consumer.handle_shutdown sigC =
      [Ev.out "\n[INFO] Shutdown signal received. Closing consumer.",
       Ev.closeCall, Ev.exited 0] :=
  ⟨rfl, rfl⟩

/-- C8: producer per-message errors are non-fatal — a delivery error is
logged by the delivery callback as an error line only, an exception
raised inside a loop iteration body is caught and logged as an error
line, and every loop iteration (normal or raising) continues the loop. -/
theorem C8_producer_errors_nonfatal :
    (∀ e topic p o, Producer.delivery_callback (some e) topic p o =
      [Ev.out ("[ERROR] Message failed delivery: " ++ e)]) ∧
    (∀ err, Producer.loopIter (Except.error err) =
      ([Ev.out ("[ERROR] Exception while producing message: " ++ err)], true)) ∧
    (∀ body, (Producer.loopIter body).2 = true) :=
  ⟨fun _ _ _ _ => rfl, fun _ => rfl, fun body => by cases body <;> rfl⟩

/-- C10: whenever the environment file loads successfully and
MESSAGE_INTERVAL is set to a string the float builtin rejects, the
producer terminates with the uncaught conversion exception raised at
line 141, before and instead of the required-variable validation: no
error diagnostic is printed and no missing-variable report occurs, for
every environment, in particular when required variables are missing. -/
theorem C10_unguarded_float_conversion (argv : List String) (fe : String → Bool)
    (env : Env) (tr : List Ev) (f : String) (s : String)
    (hload : load_environment_file argv fe = (tr, some f))
    (hset : getenv env "MESSAGE_INTERVAL" = some s)
    (hbad : pyFloat s = none) :
    Producer.startup argv fe env =
      (tr ++ [Ev.raised "ValueError: could not convert string to float"], none) := by
  unfold Producer.startup
  rw [hload]
  have hd : getenvD env "MESSAGE_INTERVAL" "1.0" = s := by
    unfold getenvD
    rw [hset]
    rfl
  rw [hd, hbad]

/-- Witness for C10: MESSAGE_INTERVAL set to abc while every required
variable is missing — the producer raises instead of reporting them. -/
theorem C10_unguarded_float_conversion_witness :
    Producer.startup ["avro_producer_app.py"] (fun _ => true) [("MESSAGE_INTERVAL", "abc")] =
      ([Ev.out "[INFO] Loaded environment from .env",
        Ev.raised "ValueError: could not convert string to float"], none) :=
  C10_unguarded_float_conversion ["avro_producer_app.py"] (fun _ => true)
    [("MESSAGE_INTERVAL", "abc")] [Ev.out "[INFO] Loaded environment from .env"] ".env" "abc"
    (by decide) (by decide) (by decide)

/-- Counterexample to C1 as stated: EAST is a first-argument value
outside the set consisting of east and west, yet — because the scripts
lower-case the argument before the membership test — both processes
accept it, load east.env, and proceed to construct the schema-registry
and broker clients without printing an error or exiting. -/
theorem C1_counterexample :
    ¬ (("EAST" : String) = "east" ∨ ("EAST" : String) = "west") ∧
    (Producer.startup ["avro_producer_app.py", "EAST"] (fun _ => true) envFull).1 =
      [Ev.out "[INFO] Loaded environment from east.env",
       Ev.schemaRegistryClient, Ev.producerClient] ∧
    (Consumer.startup ["avro_consumer_app.py", "EAST"] (fun _ => true) envFull).1 =
      [Ev.out "[INFO] Loaded environment from east.env",
       Ev.out "[WARN] \x27CONSUMER_GROUP\x27 is not set. Using default: demo-dr-consumer-group",
       Ev.schemaRegistryClient, Ev.consumerClient] := by
  refine ⟨by decide, ?_, ?_⟩ <;> decide

/-- C1 (amended): for every invocation of either process whose first
command-line argument, after lower-casing, is outside the set consisting
of east and west, the process prints the error diagnostic and exits with
status 1, and no schema-registry or broker client is constructed (the
trace is exactly the two diagnostic lines and the exit). -/
theorem C1_invalid_selector_exits (argv : List String) (fe : String → Bool) (env : Env)
    (h1 : 1 < argv.length)
    (h2 : pyLower (argv.getD 1 "") ≠ "east")
    (h3 : pyLower (argv.getD 1 "") ≠ "west") :
    Producer.startup argv fe env =
      ([Ev.out ("[ERROR] Invalid environment argument: " ++ pyLower (argv.getD 1 "")),
        Ev.out "[INFO] Valid options: \x27east\x27, \x27west\x27", Ev.exited 1], none) ∧
    Consumer.startup argv fe env =
      ([Ev.out ("[ERROR] Invalid environment argument: " ++ pyLower (argv.getD 1 "")),
        Ev.out "[INFO] Valid options: \x27east\x27, \x27west\x27", Ev.exited 1], none) := by
  have hload : load_environment_file argv fe =
      ([Ev.out ("[ERROR] Invalid environment argument: " ++ pyLower (argv.getD 1 "")),
        Ev.out "[INFO] Valid options: \x27east\x27, \x27west\x27", Ev.exited 1], none) := by
    unfold load_environment_file
    rw [if_pos h1, if_neg (not_or.mpr ⟨h2, h3⟩)]
  constructor
  · unfold Producer.startup
    rw [hload]
  · unfold Consumer.startup
    rw [hload]

/-- Witness for C1 (amended) at the concrete argument staging. -/
theorem C1_invalid_selector_exits_witness :
    Producer.startup ["app.py", "Staging"] (fun _ => true) envFull =
      ([Ev.out ("[ERROR] Invalid environment argument: " ++ pyLower (["app.py", "Staging"].getD 1 "")),
        Ev.out "[INFO] Valid options: \x27east\x27, \x27west\x27", Ev.exited 1], none) ∧
    Consumer.startup ["app.py", "Staging"] (fun _ => true) envFull =
      ([Ev.out ("[ERROR] Invalid environment argument: " ++ pyLower (["app.py", "Staging"].getD 1 "")),
        Ev.out "[INFO] Valid options: \x27east\x27, \x27west\x27", Ev.exited 1], none) :=
  C1_invalid_selector_exits ["app.py", "Staging"] (fun _ => true) envFull
    (by decide) (by decide) (by decide)

/-- Counterexample to C2 as stated: an environment in which all seven
required variables are missing but MESSAGE_INTERVAL is set to the
non-numeric string abc.  The producer startup ends in the uncaught float
conversion exception: it neither prints a diagnostic naming the missing
variables nor exits with status 1. -/
theorem C2_counterexample :
    (getenv [("MESSAGE_INTERVAL", "abc")] "BOOTSTRAP_SERVER").isNone = true ∧
    Producer.startup ["avro_producer_app.py"] (fun _ => true) [("MESSAGE_INTERVAL", "abc")] =
      ([Ev.out "[INFO] Loaded environment from .env",
        Ev.raised "ValueError: could not convert string to float"], none) := by
  refine ⟨by decide, by decide⟩

/-- C2 (amended): whenever the environment file loads successfully and at
least one required variable fails the process's own presence test
(producer: os.getenv is None, and provided the producer's
MESSAGE_INTERVAL value parses as a float; consumer: value unset or
empty), the process prints a diagnostic naming exactly the failing
variables and exits with status 1, with no schema-registry or broker
client constructed. -/
theorem C2_missing_required_vars_exit (argv : List String) (fe : String → Bool)
    (env : Env) (tr : List Ev) (f : String)
    (hload : load_environment_file argv fe = (tr, some f)) :
    ((pyFloat (getenvD env "MESSAGE_INTERVAL" "1.0")).isSome = true →
      Producer.required_vars.filter (fun v => (getenv env v).isNone) ≠ [] →
      Producer.startup argv fe env =
        (tr ++ [Ev.out ("[ERROR] Missing required environment variables: " ++
            String.intercalate ", "
              (Producer.required_vars.filter (fun v => (getenv env v).isNone))),
          Ev.exited 1], none)) ∧
    (Consumer.required_vars.filter (fun v => Consumer.falsy (getenv env v)) ≠ [] →
      Consumer.startup argv fe env =
        (tr ++ [Ev.out ("[ERROR] Missing environment variables: " ++
            String.intercalate ", "
              (Consumer.required_vars.filter (fun v => Consumer.falsy (getenv env v)))),
          Ev.exited 1], none)) := by
  constructor
  · intro hsome hmiss
    obtain ⟨q, hq⟩ := Option.isSome_iff_exists.mp hsome
    simp only [Producer.startup, hload, hq]
    rw [if_neg (by simp [List.isEmpty_iff, hmiss])]
  · intro hmiss
    simp only [Consumer.startup, hload]
    rw [if_neg (by simp [List.isEmpty_iff, hmiss])]

/-- Witness for C2 (amended): the empty environment — every required
variable is reported and both processes exit with status 1. -/
theorem C2_missing_required_vars_exit_witness :
    Producer.startup ["app.py"] (fun _ => true) [] =
      ([Ev.out "[INFO] Loaded environment from .env",
        Ev.out ("[ERROR] Missing required environment variables: " ++
          String.intercalate ", "
            (Producer.required_vars.filter (fun v => (getenv [] v).isNone))),
        Ev.exited 1], none) ∧
    Consumer.startup ["app.py"] (fun _ => true) [] =
      ([Ev.out "[INFO] Loaded environment from .env",
        Ev.out ("[ERROR] Missing environment variables: " ++
          String.intercalate ", "
            (Consumer.required_vars.filter (fun v => Consumer.falsy (getenv [] v)))),
        Ev.exited 1], none) := by
  have h := C2_missing_required_vars_exit ["app.py"] (fun _ => true) []
    [Ev.out "[INFO] Loaded environment from .env"] ".env" (by decide)
  exact ⟨h.1 (by decide) (by decide), h.2 (by decide)⟩

/-- Counterexample to C3 as stated: a valid environment file with every
required variable set and MESSAGE_INTERVAL absent.  The producer applies
the default and proceeds to client construction, but its startup trace
contains no warning line, contradicting the claimed warning. -/
theorem C3_counterexample :
    getenv envFull "MESSAGE_INTERVAL" = none ∧
    (Producer.startup ["avro_producer_app.py"] (fun _ => true) envFull).1 =
      [Ev.out "[INFO] Loaded environment from .env",
       Ev.schemaRegistryClient, Ev.producerClient] ∧
    ((Producer.startup ["avro_producer_app.py"] (fun _ => true) envFull).1.all
      (fun e => !isWarn e)) = true ∧
    (Producer.startup ["avro_producer_app.py"] (fun _ => true) envFull).2.isSome = true := by
  exact ⟨by decide, by decide, by decide, by decide⟩

/-- C3 (amended): for every startup with a successfully loading
environment file and all required keys present, the absent optional key
receives its hardcoded default — the consumer sets the group identifier
to demo-dr-consumer-group and prints a warning, while the producer sets
the message interval to 1.0 seconds silently, printing no warning. -/
theorem C3_optional_defaults (argv : List String) (fe : String → Bool) (env : Env)
    (tr : List Ev) (f : String)
    (hload : load_environment_file argv fe = (tr, some f))
    (hprod : Producer.required_vars.filter (fun v => (getenv env v).isNone) = [])
    (hcons : Consumer.required_vars.filter (fun v => Consumer.falsy (getenv env v)) = [])
    (hmi : getenv env "MESSAGE_INTERVAL" = none)
    (hcg : getenv env "CONSUMER_GROUP" = none) :
    Producer.startup argv fe env =
      (tr ++ [Ev.schemaRegistryClient, Ev.producerClient], some 1) ∧
    Consumer.startup argv fe env =
      (tr ++ [Ev.out "[WARN] \x27CONSUMER_GROUP\x27 is not set. Using default: demo-dr-consumer-group",
        Ev.schemaRegistryClient, Ev.consumerClient], some "demo-dr-consumer-group") := by
  have hd : getenvD env "MESSAGE_INTERVAL" "1.0" = "1.0" := by
    unfold getenvD
    rw [hmi]
    rfl
  have hlit : pyFloatLit "1.0" = some ⟨false, 1, 0, 1, false, 0⟩ := by decide
  have hval : FloatLit.val ⟨false, 1, 0, 1, false, 0⟩ = 1 := by
    norm_num [FloatLit.val]
  have hpf : pyFloat (getenvD env "MESSAGE_INTERVAL" "1.0") = some 1 := by
    rw [hd]
    unfold pyFloat
    rw [hlit]
    exact congrArg some hval
  constructor
  · simp only [Producer.startup, hload, hpf]
    rw [if_pos (by simp [List.isEmpty_iff, hprod])]
  · simp only [Consumer.startup, hload, hcg]
    rw [if_pos (by simp [List.isEmpty_iff, hcons])]

/-- Witness for C3 (amended) at the concrete full environment. -/
theorem C3_optional_defaults_witness :
    Producer.startup ["app.py"] (fun _ => true) envFull =
      ([Ev.out "[INFO] Loaded environment from .env",
        Ev.schemaRegistryClient, Ev.producerClient], some 1) ∧
    Consumer.startup ["app.py"] (fun _ => true) envFull =
      ([Ev.out "[INFO] Loaded environment from .env",
        Ev.out "[WARN] \x27CONSUMER_GROUP\x27 is not set. Using default: demo-dr-consumer-group",
        Ev.schemaRegistryClient, Ev.consumerClient], some "demo-dr-consumer-group") :=
  C3_optional_defaults ["app.py"] (fun _ => true) envFull
    [Ev.out "[INFO] Loaded environment from .env"] ".env"
    (by decide) (by decide) (by decide) (by decide) (by decide)

/-- C9: the producer and the consumer apply different validity tests to
the same required keys.  Whenever the environment file loads, every
required variable is set (so the producer's is-None test passes), some
required variable is set to the empty string (so the consumer's
falsiness test fails), and MESSAGE_INTERVAL parses, the producer
proceeds to construct both clients while the consumer prints the
missing-variable diagnostic and exits with status 1: the two
validations are not equivalent. -/
theorem C9_validation_mismatch (argv : List String) (fe : String → Bool) (env : Env)
    (tr : List Ev) (f : String) (v0 : String)
    (hload : load_environment_file argv fe = (tr, some f))
    (hall : ∀ v ∈ Producer.required_vars, (getenv env v).isSome = true)
    (hv0 : v0 ∈ Consumer.required_vars) (hempty : getenv env v0 = some "")
    (hmi : (pyFloat (getenvD env "MESSAGE_INTERVAL" "1.0")).isSome = true) :
    (∃ q, Producer.startup argv fe env =
      (tr ++ [Ev.schemaRegistryClient, Ev.producerClient], some q)) ∧
    Consumer.startup argv fe env =
      (tr ++ [Ev.out ("[ERROR] Missing environment variables: " ++
          String.intercalate ", "
            (Consumer.required_vars.filter (fun v => Consumer.falsy (getenv env v)))),
        Ev.exited 1], none) := by
  obtain ⟨q, hq⟩ := Option.isSome_iff_exists.mp hmi
  constructor
  · refine ⟨q, ?_⟩
    have hfilter : Producer.required_vars.filter (fun v => (getenv env v).isNone) = [] := by
      rw [List.filter_eq_nil_iff]
      intro v hv
      obtain ⟨a, ha⟩ := Option.isSome_iff_exists.mp (hall v hv)
      simp [ha]
    simp only [Producer.startup, hload, hq]
    rw [if_pos (by simp [List.isEmpty_iff, hfilter])]
  · have hne : Consumer.required_vars.filter (fun v => Consumer.falsy (getenv env v)) ≠ [] := by
      intro hnil
      have hmem : v0 ∈ Consumer.required_vars.filter (fun v => Consumer.falsy (getenv env v)) := by
        rw [List.mem_filter]
        refine ⟨hv0, ?_⟩
        rw [hempty]
        rfl
      rw [hnil] at hmem
      exact (List.not_mem_nil v0) hmem
    simp only [Consumer.startup, hload]
    rw [if_neg (by simp [List.isEmpty_iff, hne])]

/-- Witness for C9 at the concrete environment that sets every required
variable to the empty string. -/
theorem C9_validation_mismatch_witness :
    (∃ q, Producer.startup ["app.py"] (fun _ => true) envEmptyVals =
      ([Ev.out "[INFO] Loaded environment from .env",
        Ev.schemaRegistryClient, Ev.producerClient], some q)) ∧
    Consumer.startup ["app.py"] (fun _ => true) envEmptyVals =
      ([Ev.out "[INFO] Loaded environment from .env",
        Ev.out ("[ERROR] Missing environment variables: " ++
          String.intercalate ", "
            (Consumer.required_vars.filter (fun v => Consumer.falsy (getenv envEmptyVals v)))),
        Ev.exited 1], none) :=
  C9_validation_mismatch ["app.py"] (fun _ => true) envEmptyVals
    [Ev.out "[INFO] Loaded environment from .env"] ".env" "BOOTSTRAP_SERVER"
    (by decide) (by decide) (by decide) (by decide) (by decide)

/-- Every string built by pyChoices from a nonempty population has the
requested length and draws all its characters from the population. -/
theorem pyChoices_matchesClass (pool : List Char) (k : Nat) (draw : Nat → Nat)
    (hp : pool ≠ []) : matchesClass pool k (pyChoices pool k draw) := by
  have hlen : 0 < pool.length := List.length_pos.mpr hp
  constructor
  · simp [pyChoices]
  · intro c hc
    obtain ⟨i, _, rfl⟩ := List.mem_map.mp hc
    have hlt : draw i % pool.length < pool.length := Nat.mod_lt _ hlen
    rw [List.getD_eq_getElem pool ' ' hlt]
    exact pool.getElem_mem hlt

/-- Rounding to the nearest integer is monotone on the rationals. -/
theorem round_mono_rat (x y : ℚ) (h : x ≤ y) : round x ≤ round y := by
  rw [round_eq, round_eq]
  exact Int.floor_le_floor (by linarith)

/-- C4: every record returned by generate_random_transaction has a
transaction id of 8 characters from the class [A-Z0-9], a customer id of
6 characters from the class [a-z], an amount in the closed interval
[1.0, 1000.0] whose value times 100 is an integer (at most 2 decimal
places), and across two successive calls whose clock readings are
non-decreasing the timestamps are non-decreasing. -/
theorem C4_generate_random_transaction_shape
    (drawU drawL drawU2 drawL2 : Nat → Nat) (u u2 : ℚ) (now1 now2 : Int)
    (hu0 : 0 ≤ u) (hu1 : u ≤ 1) (hclock : now1 ≤ now2) :
    matchesClass (ascii_uppercase ++ string_digits) 8
      (Producer.generate_random_transaction drawU drawL u now1).transaction_id ∧
    matchesClass ascii_lowercase 6
      (Producer.generate_random_transaction drawU drawL u now1).customer_id ∧
    1 ≤ (Producer.generate_random_transaction drawU drawL u now1).amount ∧
    (Producer.generate_random_transaction drawU drawL u now1).amount ≤ 1000 ∧
    ((Producer.generate_random_transaction drawU drawL u now1).amount * 100).den = 1 ∧
    (Producer.generate_random_transaction drawU drawL u now1).timestamp_ms ≤
      (Producer.generate_random_transaction drawU2 drawL2 u2 now2).timestamp_ms := by
  have h100 : round ((100 : ℚ)) = 100 := by
    have h : ((100 : ℤ) : ℚ) = 100 := by norm_num
    rw [← h, round_intCast]
  have h100K : round ((100000 : ℚ)) = 100000 := by
    have h : ((100000 : ℤ) : ℚ) = 100000 := by norm_num
    rw [← h, round_intCast]
  have hx1 : (100 : ℚ) ≤ pyUniform 1 1000 u * 100 := by
    unfold pyUniform
    nlinarith
  have hx2 : pyUniform 1 1000 u * 100 ≤ 100000 := by
    unfold pyUniform
    nlinarith
  have hr1 : (100 : ℤ) ≤ round (pyUniform 1 1000 u * 100) := by
    rw [← h100]
    exact round_mono_rat _ _ hx1
  have hr2 : round (pyUniform 1 1000 u * 100) ≤ 100000 := by
    rw [← h100K]
    exact round_mono_rat _ _ hx2
  have hr1q : (100 : ℚ) ≤ ((round (pyUniform 1 1000 u * 100) : ℤ) : ℚ) := by
    exact_mod_cast hr1
  have hr2q : ((round (pyUniform 1 1000 u * 100) : ℤ) : ℚ) ≤ 100000 := by
    exact_mod_cast hr2
  refine ⟨pyChoices_matchesClass _ 8 drawU (by decide),
    pyChoices_matchesClass _ 6 drawL (by decide), ?_, ?_, ?_, hclock⟩
  · show (1 : ℚ) ≤ pyRound2 (pyUniform 1 1000 u)
    unfold pyRound2
    rw [le_div_iff (by norm_num : (0 : ℚ) < 100)]
    linarith
  · show pyRound2 (pyUniform 1 1000 u) ≤ 1000
    unfold pyRound2
    rw [div_le_iff (by norm_num : (0 : ℚ) < 100)]
    linarith
  · show (pyRound2 (pyUniform 1 1000 u) * 100).den = 1
    unfold pyRound2
    rw [div_mul_cancel₀ _ (by norm_num : (100 : ℚ) ≠ 0)]
    exact Rat.den_intCast _

/-- Witness for C4 at concrete draws, random fraction and clock values. -/
theorem C4_generate_random_transaction_shape_witness :
    matchesClass (ascii_uppercase ++ string_digits) 8
      (Producer.generate_random_transaction (fun _ => 3) (fun _ => 4) 1 1723847241000).transaction_id ∧
    matchesClass ascii_lowercase 6
      (Producer.generate_random_transaction (fun _ => 3) (fun _ => 4) 1 1723847241000).customer_id ∧
    1 ≤ (Producer.generate_random_transaction (fun _ => 3) (fun _ => 4) 1 1723847241000).amount ∧
    (Producer.generate_random_transaction (fun _ => 3) (fun _ => 4) 1 1723847241000).amount ≤ 1000 ∧
    ((Producer.generate_random_transaction (fun _ => 3) (fun _ => 4) 1 1723847241000).amount * 100).den = 1 ∧
    (Producer.generate_random_transaction (fun _ => 3) (fun _ => 4) 1 1723847241000).timestamp_ms ≤
      (Producer.generate_random_transaction (fun _ => 5) (fun _ => 6) 0 1723847242000).timestamp_ms :=
  C4_generate_random_transaction_shape (fun _ => 3) (fun _ => 4) (fun _ => 5) (fun _ => 6)
    1 0 1723847241000 1723847242000 zero_le_one (le_refl 1) (by norm_num)
